import Mathlib

/-!
Verification of the ToastBot firmware against its specification.

The development shallowly embeds the three Arduino sketches of the
repository:

* `Arduino/colour_sense_6shades.ino` — the multi-sensor browning
  controller: RGB → CIE L*a*b* conversion (`normalizeRGB`, `RGBtoXYZ`,
  `XYZtoLAB`), the per-cycle control step of `loop`, and the I2C shade
  reception of `receiveEvent`.
* the standalone sensor/PWM sketch (`convertRGBToLAB` and the manual
  PWM duty-cycle logic of its `loop`).
* `M5Dial/M5Dial.ino` — the rotary-dial shade selector.

Floating-point arithmetic is modelled over `ℝ` (with `Real.rpow` for
`pow`); machine integers over `ℤ`/`ℕ`; digital pin levels as `Bool`
(`true` = electrical HIGH).
-/

namespace ToastBot

/-- Conversion of an integer value into the AVR's 16-bit `int`
(two's-complement wrap): reduce modulo 2^16, landing in
[-32768, 32767]. Both sketches run on AVR-class boards (the standalone
one states an Arduino Nano), where `int` is 16 bits wide. -/
def wrapInt16 (v : ℤ) : ℤ :=
  if v % 65536 < 32768 then v % 65536 else v % 65536 - 65536

noncomputable section

/-! ### Colour conversion, `Arduino/colour_sense_6shades.ino` -/

/-- Embeds `normalizeRGB` (line 50): divide the channel value by 255.
The raw value is the `uint16_t` delivered by `getColorData`; passing it
to the 16-bit `int` parameter wraps values at and above 32768 to
negative before the division. -/
def normalizeRGB (color : ℕ) : ℝ :=
  ((wrapInt16 color : ℤ) : ℝ) / 255

/-- Embeds the sRGB inverse-gamma expression applied to each channel at
the start of `RGBtoXYZ` (lines 56–58); the identical expression appears
in `convertRGBToLAB` of the standalone sketch (lines 195–200). -/
def srgbGamma (c : ℝ) : ℝ :=
  if c > 0.04045 then ((c + 0.055) / 1.055) ^ (2.4 : ℝ) else c / 12.92

/-- Embeds the `X` output of `RGBtoXYZ` (line 61). -/
def xyzX (r g b : ℝ) : ℝ :=
  srgbGamma r * 0.4124564 + srgbGamma g * 0.3575761 + srgbGamma b * 0.1804375

/-- Embeds the `Y` output of `RGBtoXYZ` (line 62). -/
def xyzY (r g b : ℝ) : ℝ :=
  srgbGamma r * 0.2126729 + srgbGamma g * 0.7151522 + srgbGamma b * 0.0721750

/-- Embeds the `Z` output of `RGBtoXYZ` (line 63). -/
def xyzZ (r g b : ℝ) : ℝ :=
  srgbGamma r * 0.0193339 + srgbGamma g * 0.1191920 + srgbGamma b * 0.9503041

/-- Embeds the piecewise cube-root/linear function applied to each of
`Xr`, `Yr`, `Zr` in `XYZtoLAB` (lines 71–73). -/
def labF (t : ℝ) : ℝ :=
  if t > 0.008856 then t ^ ((1 : ℝ) / 3) else (903.3 * t + 16) / 116

/-- Embeds the `L` output of `XYZtoLAB` (line 75), with the reference
white `Yn = 1.00000` of line 68. -/
def labL (Y : ℝ) : ℝ :=
  116 * labF (Y / 1.00000) - 16

/-- Embeds the `a` output of `XYZtoLAB` (line 76), with `Xn = 0.95047`. -/
def labA (X Y : ℝ) : ℝ :=
  500 * (labF (X / 0.95047) - labF (Y / 1.00000))

/-- Embeds the `b` output of `XYZtoLAB` (line 77), with `Zn = 1.08883`. -/
def labB (Y Z : ℝ) : ℝ :=
  200 * (labF (Y / 1.00000) - labF (Z / 1.08883))

/-- Embeds `readSensor` (lines 161–188) as a function of the raw RGB
triple the sensor delivers: normalize each channel, run `RGBtoXYZ` then
`XYZtoLAB`, and return the `L` component. -/
def readSensorL (r g b : ℕ) : ℝ :=
  labL (xyzY (normalizeRGB r) (normalizeRGB g) (normalizeRGB b))

/-- Embeds the aggregation of line 117: `avgL = (L1 + L2 + L3) / 3.0`,
with each `Li` produced by `readSensor` from that sensor's raw triple. -/
def avgL (s1 s2 s3 : ℕ × ℕ × ℕ) : ℝ :=
  (readSensorL s1.1 s1.2.1 s1.2.2 + readSensorL s2.1 s2.2.1 s2.2.2 +
    readSensorL s3.1 s3.2.1 s3.2.2) / 3

/-! ### Control cycle of `loop`, `Arduino/colour_sense_6shades.ino` -/

/-- State touched by `loop` (lines 112–134): the active target `targetL`
and the five output pins. `true` models electrical HIGH; heat pins are
driven HIGH at `setup`, and `TOAST_READY_PIN` HIGH means "not ready". -/
structure LoopState where
  targetL : ℝ
  heatPin1 : Bool
  heatPin2 : Bool
  heatPin3 : Bool
  heatPin4 : Bool
  readyPin : Bool
  deriving DecidableEq

/-- State written by the body of the `if` of lines 123–131: all heat
pins LOW, ready pin LOW (asserted), and `targetL = -1` to prevent
retrigger. -/
def doneState : LoopState :=
  { targetL := -1, heatPin1 := false, heatPin2 := false, heatPin3 := false,
    heatPin4 := false, readyPin := false }

/-- Embeds one pass of `loop` (lines 112–134) as a function of the
average reading of the cycle: when `targetL > 0 && avgL <= targetL`
the heaters and ready pin are driven LOW and the target cleared;
otherwise the state is untouched. -/
def loopStep (s : LoopState) (avg : ℝ) : LoopState :=
  if s.targetL > 0 ∧ avg ≤ s.targetL then doneState else s

/-- Iterates `loopStep` over the per-cycle average readings of a run. -/
def runLoop (s : LoopState) (avgs : List ℝ) : LoopState :=
  avgs.foldl loopStep s

/-- One pass of `loop` fed by the raw triples of the three sensors read
at lines 113–115, averaged at line 117. -/
def loopStepSensors (s : LoopState) (r1 r2 r3 : ℕ × ℕ × ℕ) : LoopState :=
  loopStep s (avgL r1 r2 r3)

end

/-! ### Shade reception, `receiveEvent` (lines 137–158) -/

/-- Embeds the `switch (shadeIndex)` of lines 145–156 mapping a received
shade index to a target L*; any other value falls to the `default`
branch, `targetL = -1`. -/
def shadeToTargetL (i : ℤ) : ℤ :=
  if i = 0 then 85
  else if i = 1 then 75
  else if i = 2 then 65
  else if i = 3 then 55
  else if i = 4 then 45
  else if i = 5 then 35
  else -1

/-- The shade→threshold table of the `switch`, as a list indexed by
shade 0–5. -/
def shadeTargetTable : List ℤ :=
  [85, 75, 65, 55, 45, 35]

/-- Global reception state of `receiveEvent`: `shadeIndex`,
`shadeReceived` and `targetL` (here kept at its exact integer value). -/
structure ShadeState where
  shadeIndex : ℤ
  shadeReceived : Bool
  targetL : ℤ
  deriving DecidableEq

/-- Embeds one iteration of the `while (Wire.available())` body of
`receiveEvent` (lines 138–157) on one received byte. -/
def receiveByte (_ : ShadeState) (b : ℤ) : ShadeState :=
  { shadeIndex := b, shadeReceived := true, targetL := shadeToTargetL b }

/-- Embeds a whole `receiveEvent` call on the list of available bytes. -/
def receiveEvent (s : ShadeState) (bytes : List ℤ) : ShadeState :=
  bytes.foldl receiveByte s

/-! ### Standalone sketch: `convertRGBToLAB` (lines 180–230) -/

noncomputable section

/-- Embeds `max(max(R, G), B)` of line 181. -/
def convMax (R G B : ℝ) : ℝ :=
  max (max R G) B

/-- Embeds `convertRGBToLAB`'s piecewise function on `x`, `y`, `z`
(lines 218–225): cube root above 0.008856, `7.787·t + 16/116` below. -/
def labF2 (t : ℝ) : ℝ :=
  if t > 0.008856 then t ^ ((1 : ℝ) / 3) else 7.787 * t + 16.0 / 116.0

/-- Embeds `convertRGBToLAB` (lines 180–230): if the maximum channel is
`≤ 0`, return `(0,0,0)`; otherwise divide each channel by the maximum,
divide again by 255, apply the sRGB inverse gamma, scale by 100, apply
the 4-digit RGB→XYZ matrix, divide by the percentage-scaled reference
white `(95.047, 100, 108.883)`, apply `labF2`, and produce `(L, a, b)`. -/
def convertRGBToLAB (R G B : ℝ) : ℝ × ℝ × ℝ :=
  if convMax R G B ≤ 0 then (0, 0, 0)
  else
    let R1 := R / convMax R G B / 255
    let G1 := G / convMax R G B / 255
    let B1 := B / convMax R G B / 255
    let R2 := srgbGamma R1 * 100
    let G2 := srgbGamma G1 * 100
    let B2 := srgbGamma B1 * 100
    let X := R2 * 0.4124 + G2 * 0.3576 + B2 * 0.1805
    let Y := R2 * 0.2126 + G2 * 0.7152 + B2 * 0.0722
    let Z := R2 * 0.0193 + G2 * 0.1192 + B2 * 0.9505
    let x := labF2 (X / 95.047)
    let y := labF2 (Y / 100.0)
    let z := labF2 (Z / 108.883)
    (116.0 * y - 16.0, 500.0 * (x - y), 200.0 * (y - z))

end

/-! ### Standalone sketch: manual PWM duty-cycle logic of `loop` -/

/-- Initial value of `duty_cycle` (line 37). -/
def initialDuty : ℤ := 80

/-- Embeds the duty update of lines 80–87: a completed serial token is
parsed with `toInt` (a `long`), the result is stored into the 16-bit
`int new_duty` — wrapping modulo 2^16 — and accepted only when
`0 ≤ new_duty ≤ 100`; otherwise the stored duty cycle is kept. -/
def updateDuty (duty : ℤ) (token : ℤ) : ℤ :=
  if 0 ≤ wrapInt16 token ∧ wrapInt16 token ≤ 100 then wrapInt16 token else duty

/-- Folds `updateDuty` over a whole sequence of parsed serial tokens. -/
def runDuty (duty : ℤ) (tokens : List ℤ) : ℤ :=
  tokens.foldl updateDuty duty

/-- Embeds `mini_cycle_time` (line 125). -/
def miniCycleTime : ℤ := 125

/-- Embeds `high_time = mini_cycle_time * duty_cycle / 100` (line 126),
C integer division. -/
def highTime (duty : ℤ) : ℤ :=
  miniCycleTime * duty / 100

/-- Embeds `low_time = mini_cycle_time - high_time` (line 127). -/
def lowTime (duty : ℤ) : ℤ :=
  miniCycleTime - highTime duty

/-- Pin writes of one pass of the manual-PWM section of `loop`
(lines 116–176), as a list of (level, duration-in-ms) pairs: fully HIGH
for the 100 ms pass when `duty ≥ 100`, fully LOW when `duty ≤ 0`, and
otherwise sixteen HIGH/LOW mini-cycles of `high_time`/`low_time`. -/
def pwmWrites (duty : ℤ) : List (Bool × ℤ) :=
  if duty ≥ 100 then [(true, 100)]
  else if duty ≤ 0 then [(false, 100)]
  else List.flatten (List.replicate 16 [(true, highTime duty), (false, lowTime duty)])

/-! ### Rotary dial, `M5Dial/M5Dial.ino` `loop` (lines 100–126) -/

/-- Embeds `num_positions` (line 15). -/
def numPositions : ℤ := 6

/-- Initial value of `currentShade` (line 14). -/
def initialShade : ℤ := 1

/-- Embeds the shade update of lines 106–110, run when the encoder
moved (`diff` is the nonzero position change): a positive change maps
`currentShade` to `currentShade % 6 + 1`, any other change to
`(currentShade - 2 + 6) % 6 + 1`. -/
def stepShade (currentShade : ℤ) (diff : ℤ) : ℤ :=
  if diff > 0 then currentShade % numPositions + 1
  else (currentShade - 2 + numPositions) % numPositions + 1

/-- Folds `stepShade` over a sequence of encoder position changes. -/
def runShade (s : ℤ) (diffs : List ℤ) : ℤ :=
  diffs.foldl stepShade s

/-! ## Helper lemmas -/

theorem wrapInt16_small (v : ℤ) (h0 : 0 ≤ v) (h1 : v < 32768) : wrapInt16 v = v := by
  rw [wrapInt16]
  have he : v % 65536 = v := Int.emod_eq_of_lt h0 (by omega)
  rw [he, if_pos h1]

theorem normalizeRGB_eq_of_small (k : ℕ) (hk : k < 32768) :
    normalizeRGB k = (k : ℝ) / 255 := by
  rw [normalizeRGB, wrapInt16_small _ (by positivity) (by exact_mod_cast hk)]
  push_cast
  ring

theorem srgbGamma_nonneg (c : ℝ) (_hc : 0 ≤ c) : 0 ≤ srgbGamma c := by
  rw [srgbGamma]
  split
  · exact Real.rpow_nonneg (by positivity) _
  · positivity

theorem srgbGamma_le_one (c : ℝ) (_hc : 0 ≤ c) (hc1 : c ≤ 1) : srgbGamma c ≤ 1 := by
  rw [srgbGamma]
  split
  · refine Real.rpow_le_one (by positivity) ?_ (by norm_num)
    rw [div_le_one (by norm_num)]
    linarith
  · rw [div_le_one (by norm_num)]
    linarith

theorem labF_lower (t : ℝ) (ht : 0 ≤ t) : 16 / 116 ≤ labF t := by
  rw [labF]
  split
  · rename_i h
    have h3 : ((16 / 116 : ℝ) ^ (3 : ℕ)) ^ ((3 : ℕ)⁻¹ : ℝ) = 16 / 116 :=
      Real.pow_rpow_inv_natCast (by norm_num) (by norm_num)
    have hmono : ((16 / 116 : ℝ) ^ (3 : ℕ)) ^ ((3 : ℕ)⁻¹ : ℝ) ≤ t ^ ((3 : ℕ)⁻¹ : ℝ) :=
      Real.rpow_le_rpow (by positivity) (by nlinarith) (by norm_num)
    have hexp : ((3 : ℕ)⁻¹ : ℝ) = (1 : ℝ) / 3 := by norm_num
    rw [hexp] at h3 hmono
    linarith
  · linarith

theorem labF_upper (t : ℝ) (ht : t ≤ 1.0000001) : labF t ≤ 1.0000001 := by
  rw [labF]
  split
  · rename_i h
    have hcube : t ≤ (1.0000001 : ℝ) ^ (3 : ℕ) := by nlinarith
    have hmono : t ^ ((3 : ℕ)⁻¹ : ℝ) ≤ ((1.0000001 : ℝ) ^ (3 : ℕ)) ^ ((3 : ℕ)⁻¹ : ℝ) :=
      Real.rpow_le_rpow (by linarith) hcube (by norm_num)
    have h3 : ((1.0000001 : ℝ) ^ (3 : ℕ)) ^ ((3 : ℕ)⁻¹ : ℝ) = 1.0000001 :=
      Real.pow_rpow_inv_natCast (by norm_num) (by norm_num)
    have hexp : ((3 : ℕ)⁻¹ : ℝ) = (1 : ℝ) / 3 := by norm_num
    rw [hexp] at h3 hmono
    linarith
  · linarith

theorem normalizeRGB_nonneg (k : ℕ) (hk : k ≤ 255) : 0 ≤ normalizeRGB k := by
  rw [normalizeRGB_eq_of_small k (by omega)]
  positivity

theorem normalizeRGB_le_one (k : ℕ) (hk : k ≤ 255) : normalizeRGB k ≤ 1 := by
  rw [normalizeRGB_eq_of_small k (by omega), div_le_one (by norm_num)]
  exact_mod_cast hk

theorem xyzY_nonneg (r g b : ℝ) (hr : 0 ≤ r) (hg : 0 ≤ g) (hb : 0 ≤ b) :
    0 ≤ xyzY r g b := by
  rw [xyzY]
  have h1 := srgbGamma_nonneg r hr
  have h2 := srgbGamma_nonneg g hg
  have h3 := srgbGamma_nonneg b hb
  nlinarith

theorem xyzY_le (r g b : ℝ) (hr0 : 0 ≤ r) (hr1 : r ≤ 1) (hg0 : 0 ≤ g) (hg1 : g ≤ 1)
    (hb0 : 0 ≤ b) (hb1 : b ≤ 1) : xyzY r g b ≤ 1.0000001 := by
  rw [xyzY]
  have h1 := srgbGamma_le_one r hr0 hr1
  have h2 := srgbGamma_le_one g hg0 hg1
  have h3 := srgbGamma_le_one b hb0 hb1
  have h4 := srgbGamma_nonneg r hr0
  have h5 := srgbGamma_nonneg g hg0
  have h6 := srgbGamma_nonneg b hb0
  nlinarith

theorem readSensorL_nonneg (r g b : ℕ) (hr : r ≤ 255) (hg : g ≤ 255) (hb : b ≤ 255) :
    0 ≤ readSensorL r g b := by
  rw [readSensorL, labL]
  have hy : 0 ≤ xyzY (normalizeRGB r) (normalizeRGB g) (normalizeRGB b) :=
    xyzY_nonneg _ _ _ (normalizeRGB_nonneg r hr) (normalizeRGB_nonneg g hg)
      (normalizeRGB_nonneg b hb)
  have hdiv : xyzY (normalizeRGB r) (normalizeRGB g) (normalizeRGB b) / 1.00000 =
      xyzY (normalizeRGB r) (normalizeRGB g) (normalizeRGB b) := by norm_num
  rw [hdiv]
  have := labF_lower _ hy
  linarith

theorem readSensorL_le (r g b : ℕ) (hr : r ≤ 255) (hg : g ≤ 255) (hb : b ≤ 255) :
    readSensorL r g b ≤ 100.001 := by
  rw [readSensorL, labL]
  have hy : xyzY (normalizeRGB r) (normalizeRGB g) (normalizeRGB b) ≤ 1.0000001 :=
    xyzY_le _ _ _ (normalizeRGB_nonneg r hr) (normalizeRGB_le_one r hr)
      (normalizeRGB_nonneg g hg) (normalizeRGB_le_one g hg)
      (normalizeRGB_nonneg b hb) (normalizeRGB_le_one b hb)
  have hdiv : xyzY (normalizeRGB r) (normalizeRGB g) (normalizeRGB b) / 1.00000 =
      xyzY (normalizeRGB r) (normalizeRGB g) (normalizeRGB b) := by norm_num
  rw [hdiv]
  have := labF_upper _ hy
  linarith

theorem readSensorL_zero : readSensorL 0 0 0 = 0 := by
  norm_num [readSensorL, labL, labF, xyzY, srgbGamma, normalizeRGB, wrapInt16]

theorem readSensorL_white_gt : 100 < readSensorL 255 255 255 := by
  have hn : normalizeRGB 255 = 1 := by
    rw [normalizeRGB_eq_of_small 255 (by omega)]
    norm_num
  have hg : srgbGamma 1 = 1 := by
    rw [srgbGamma, if_pos (by norm_num)]
    norm_num [Real.one_rpow]
  have hy : xyzY (normalizeRGB 255) (normalizeRGB 255) (normalizeRGB 255) = 1.0000001 := by
    rw [hn, xyzY, hg]
    norm_num
  rw [readSensorL, hy, labL]
  have h1 : (1.0000001 : ℝ) / 1.00000 = 1.0000001 := by norm_num
  rw [h1, labF, if_pos (by norm_num)]
  have : 1 < (1.0000001 : ℝ) ^ ((1 : ℝ) / 3) := by
    rw [Real.one_lt_rpow_iff_of_pos (by norm_num)]
    left
    constructor <;> norm_num
  linarith

theorem convertRGBToLAB_black : convertRGBToLAB 0 0 0 = (0, 0, 0) := by
  norm_num [convertRGBToLAB, convMax]

theorem convertRGBToLAB_white_lt_one : (convertRGBToLAB 255 255 255).1 < 1 := by
  norm_num [convertRGBToLAB, convMax, labF2, srgbGamma]

theorem loopStep_done (a : ℝ) : loopStep doneState a = doneState := by
  rw [loopStep, if_neg]
  rintro ⟨h, -⟩
  rw [doneState] at h
  norm_num at h

theorem runLoop_done (l : List ℝ) : runLoop doneState l = doneState := by
  induction l with
  | nil => rfl
  | cons a l ih =>
    rw [runLoop, List.foldl_cons, loopStep_done]
    exact ih

theorem runLoop_of_above (s : LoopState) (l : List ℝ)
    (h : ∀ x ∈ l, s.targetL < x) : runLoop s l = s := by
  induction l with
  | nil => rfl
  | cons a l ih =>
    have hstep : loopStep s a = s := by
      rw [loopStep, if_neg]
      rintro ⟨-, hle⟩
      exact absurd (h a (List.mem_cons_self a l)) (not_lt.mpr hle)
    rw [runLoop, List.foldl_cons, hstep]
    exact ih fun x hx => h x (List.mem_cons_of_mem a hx)

theorem updateDuty_bounds (d t : ℤ) (h0 : 0 ≤ d) (h1 : d ≤ 100) :
    0 ≤ updateDuty d t ∧ updateDuty d t ≤ 100 := by
  rw [updateDuty]
  split <;> omega

theorem runDuty_bounds (tokens : List ℤ) (d : ℤ) (h0 : 0 ≤ d) (h1 : d ≤ 100) :
    0 ≤ runDuty d tokens ∧ runDuty d tokens ≤ 100 := by
  induction tokens generalizing d with
  | nil => exact ⟨h0, h1⟩
  | cons t l ih =>
    rw [runDuty, List.foldl_cons]
    obtain ⟨ha, hb⟩ := updateDuty_bounds d t h0 h1
    exact ih (updateDuty d t) ha hb

theorem stepShade_bounds (s d : ℤ) : 1 ≤ stepShade s d ∧ stepShade s d ≤ 6 := by
  simp only [stepShade, numPositions]
  split <;> omega

theorem runShade_bounds (diffs : List ℤ) (s : ℤ) (h1 : 1 ≤ s) (h2 : s ≤ 6) :
    1 ≤ runShade s diffs ∧ runShade s diffs ≤ 6 := by
  induction diffs generalizing s with
  | nil => exact ⟨h1, h2⟩
  | cons d l ih =>
    rw [runShade, List.foldl_cons]
    obtain ⟨ha, hb⟩ := stepShade_bounds s d
    exact ih (stepShade s d) ha hb

/-! ## Claims -/

/-- Claim C1: for a session with a valid active target (`targetL > 0`),
cycles whose average stays above the target leave the state untouched;
the first cycle whose average is at or below the target drives all four
heat pins LOW (heaters off) and the ready pin LOW (toast-ready
asserted) and clears the target; and every later cycle of the session
leaves that completed state exactly as it is — the ready signal is
asserted once and held, and no later cycle re-triggers completion or
re-enables the heaters. -/
theorem claim1_completion_one_shot (s : LoopState) (pre : List ℝ) (a : ℝ)
    (post : List ℝ) (hvalid : s.targetL > 0)
    (hpre : ∀ x ∈ pre, s.targetL < x) (hhit : a ≤ s.targetL) :
    runLoop s pre = s ∧
    loopStep s a = doneState ∧
    doneState.heatPin1 = false ∧ doneState.heatPin2 = false ∧
    doneState.heatPin3 = false ∧ doneState.heatPin4 = false ∧
    doneState.readyPin = false ∧
    runLoop s (pre ++ a :: post) = doneState ∧
    runLoop doneState post = doneState := by
  have h1 : runLoop s pre = s := runLoop_of_above s pre hpre
  have h2 : loopStep s a = doneState := by
    rw [loopStep, if_pos ⟨hvalid, hhit⟩]
  have h3 : runLoop s (pre ++ a :: post) = doneState := by
    rw [runLoop, List.foldl_append]
    have hmid : List.foldl loopStep s pre = s := h1
    rw [hmid, List.foldl_cons, h2]
    exact runLoop_done post
  exact ⟨h1, h2, rfl, rfl, rfl, rfl, rfl, h3, runLoop_done post⟩

/-- Witness for C1 at a concrete session: target 85, heaters on, one
cycle at 90 (above target), the triggering cycle at 55, and two later
cycles; the run ends in the completed state with heaters off and ready
asserted. -/
theorem claim1_witness :
    runLoop
      { targetL := 85, heatPin1 := true, heatPin2 := true, heatPin3 := true,
        heatPin4 := true, readyPin := true } ([90] ++ 55 :: [54, 53]) = doneState ∧
    doneState.readyPin = false ∧ doneState.heatPin1 = false := by
  have h := claim1_completion_one_shot
    { targetL := 85, heatPin1 := true, heatPin2 := true, heatPin3 := true,
      heatPin4 := true, readyPin := true } [90] 55 [54, 53]
    (by norm_num) (by intro x hx; rw [List.mem_singleton] at hx; rw [hx]; norm_num)
    (by norm_num)
  exact ⟨h.2.2.2.2.2.2.2.1, h.2.2.2.2.2.2.1, h.2.2.1⟩

/-- Claim C3 fails as stated: with shade 3 active (target 55), receiving
the out-of-range selection 9 does not retain the previous target — the
`default` branch of the `switch` overwrites it with the sentinel `-1`. -/
theorem claim3_counterexample :
    (receiveByte { shadeIndex := 3, shadeReceived := true, targetL := 55 } 9).targetL
        = -1 ∧
    (receiveByte { shadeIndex := 3, shadeReceived := true, targetL := 55 } 9).targetL
        ≠ 55 := by
  decide

/-- Claim C3 amended: a selection outside 0–5 does not crash (the
handler is total: it stores the received byte and keeps running), but
instead of retaining the previous target it sets `targetL` to the
invalid sentinel `-1`, which disables completion until a valid
selection arrives. -/
theorem claim3_amended (s : ShadeState) (b : ℤ) (hb : b < 0 ∨ 5 < b) :
    (receiveByte s b).targetL = -1 ∧ (receiveByte s b).shadeIndex = b := by
  refine ⟨?_, rfl⟩
  show shadeToTargetL b = -1
  rw [shadeToTargetL]
  rcases hb with h | h <;> · repeat rw [if_neg (by omega)]

/-- Witness for C3 amended at the concrete out-of-range byte 9. -/
theorem claim3_witness :
    (receiveByte { shadeIndex := 0, shadeReceived := false, targetL := -1 } 9).targetL
        = -1 ∧
    (receiveByte { shadeIndex := 0, shadeReceived := false, targetL := -1 } 9).shadeIndex
        = 9 :=
  claim3_amended { shadeIndex := 0, shadeReceived := false, targetL := -1 } 9
    (Or.inr (by decide))

/-- Claim C4: the shade→threshold table has exactly 6 entries, the
`switch` of `receiveEvent` maps each index 0–5 to the corresponding
entry, and the mapped thresholds strictly decrease as the shade index
increases. -/
theorem claim4_table :
    shadeTargetTable.length = 6 ∧
    (∀ i : ℕ, i < 6 → shadeToTargetL (i : ℤ) = shadeTargetTable[i]!) ∧
    (∀ j : ℕ, j < 6 → ∀ i : ℕ, i < j →
      shadeToTargetL (j : ℤ) < shadeToTargetL (i : ℤ)) := by
  refine ⟨by decide, by decide, by decide⟩

/-- Witness for C4 at concrete indices 2 < 5: the darker shade 5 has a
strictly smaller threshold than shade 2. -/
theorem claim4_witness :
    shadeToTargetL ((5 : ℕ) : ℤ) < shadeToTargetL ((2 : ℕ) : ℤ) :=
  claim4_table.2.2 5 (by decide) 2 (by decide)

/-- Claim C9 fails as stated on the invalid-token conjunct: the parsed
value of the token "65636" is 65636, outside [0, 100], yet storing the
`long` parse result into the 16-bit `int new_duty` wraps it to 100,
which passes the guard and overwrites the stored duty cycle. -/
theorem claim9_counterexample :
    100 < (65636 : ℤ) ∧ updateDuty 80 65636 = 100 ∧ updateDuty 80 65636 ≠ 80 := by
  refine ⟨by decide, ?_, ?_⟩ <;> · rw [updateDuty] ; decide

/-- Claim C9 amended: the acceptance guard applies to the 16-bit-wrapped
value of the parsed token, so a token whose wrapped value is outside
[0, 100] leaves the stored duty unchanged (while a parse outside
[0, 100] that wraps into it, such as 65636 → 100, is stored). The rest
of the claim holds: starting from the initial duty 80 the stored duty
stays in [0, 100] under every token sequence; for a stored duty
strictly between 0 and 100 each mini-cycle has
`high_time = 125·duty/100` (integer division) with
`high_time + low_time = 125` ms and the PWM section emits sixteen such
HIGH/LOW mini-cycles; and the output pin is only ever driven fully HIGH
or fully LOW. -/
theorem claim9_amended :
    (∀ tokens : List ℤ,
      0 ≤ runDuty initialDuty tokens ∧ runDuty initialDuty tokens ≤ 100) ∧
    (∀ d t : ℤ, wrapInt16 t < 0 ∨ 100 < wrapInt16 t → updateDuty d t = d) ∧
    (∀ d : ℤ, 0 < d → d < 100 →
      highTime d = 125 * d / 100 ∧
      highTime d + lowTime d = 125 ∧
      pwmWrites d =
        List.flatten (List.replicate 16 [(true, highTime d), (false, lowTime d)])) ∧
    (∀ d : ℤ, ∀ w ∈ pwmWrites d, w.1 = true ∨ w.1 = false) := by
  refine ⟨?_, ?_, ?_, ?_⟩
  · intro tokens
    exact runDuty_bounds tokens initialDuty (by decide) (by decide)
  · intro d t ht
    rw [updateDuty, if_neg (by omega)]
  · intro d h0 h1
    refine ⟨rfl, ?_, ?_⟩
    · simp only [lowTime, highTime, miniCycleTime]
      omega
    · rw [pwmWrites, if_neg (by omega), if_neg (by omega)]
  · intro d w _
    rcases w with ⟨b, t⟩
    cases b
    · exact Or.inr rfl
    · exact Or.inl rfl

/-- Witness for C9 amended at concrete inputs: the token 150 (wrapping
to 150, outside [0, 100]) is rejected, duty 40 gives a 50 ms / 75 ms
mini-cycle split, and a run of tokens keeps the duty within bounds. -/
theorem claim9_witness :
    updateDuty 80 150 = 80 ∧
    highTime 40 + lowTime 40 = 125 ∧
    runDuty initialDuty [150, 42, -3] ≤ 100 := by
  refine ⟨?_, ?_, ?_⟩
  · exact claim9_amended.2.1 80 150 (Or.inr (by decide))
  · exact (claim9_amended.2.2.1 40 (by decide) (by decide)).2.1
  · exact (claim9_amended.1 [150, 42, -3]).2

/-- Claim C10: starting from the initial shade 1, `currentShade` stays
in 1–6 under every sequence of encoder movements; a positive encoder
change advances it by one with wrap-around 6→1, and a negative change
decrements it by one with wrap-around 1→6. -/
theorem claim10_dial_invariant :
    (∀ diffs : List ℤ,
      1 ≤ runShade initialShade diffs ∧ runShade initialShade diffs ≤ 6) ∧
    (∀ s d : ℤ, 1 ≤ s → s ≤ 6 → 0 < d →
      stepShade s d = if s = 6 then 1 else s + 1) ∧
    (∀ s d : ℤ, 1 ≤ s → s ≤ 6 → d < 0 →
      stepShade s d = if s = 1 then 6 else s - 1) := by
  refine ⟨?_, ?_, ?_⟩
  · intro diffs
    exact runShade_bounds diffs initialShade (by decide) (by decide)
  · intro s d h1 h2 hd
    simp only [stepShade, numPositions]
    rw [if_pos hd]
    interval_cases s <;> decide
  · intro s d h1 h2 hd
    simp only [stepShade, numPositions]
    rw [if_neg (by omega)]
    interval_cases s <;> decide

/-- Witness for C10 at concrete inputs: a positive change wraps 6→1, a
negative change wraps 1→6, and a concrete movement sequence stays in
bounds. -/
theorem claim10_witness :
    stepShade 6 3 = 1 ∧ stepShade 1 (-2) = 6 ∧
    runShade initialShade [3, -2, 1] ≤ 6 := by
  refine ⟨?_, ?_, (claim10_dial_invariant.1 [3, -2, 1]).2⟩
  · have h := claim10_dial_invariant.2.1 6 3 (by decide) (by decide) (by decide)
    simpa using h
  · have h := claim10_dial_invariant.2.2 1 (-2) (by decide) (by decide) (by decide)
    simpa using h

/-- Claim C2 fails as stated: with sensor 1 failed (an all-zero read)
and sensors 2 and 3 validly reading (10,10,10), the firmware's
aggregate is strictly below the mean of the two valid sensors' L*
values — the failed sensor's converted zero is averaged in as a 3-way
mean, biasing the result toward dark. -/
theorem claim2_counterexample :
    avgL (0, 0, 0) (10, 10, 10) (10, 10, 10) <
      (readSensorL 10 10 10 + readSensorL 10 10 10) / 2 := by
  norm_num [avgL, readSensorL, labL, labF, xyzY, srgbGamma, normalizeRGB, wrapInt16]

/-- Claim C2 amended: `loop` performs no exclusion at all — the
aggregate is unconditionally the 3-way mean of whatever L* values the
three reads produce, and a failed (all-zero) read contributes its
converted L* value 0 to that mean instead of being excluded. -/
theorem claim2_amended :
    (∀ s1 s2 s3 : ℕ × ℕ × ℕ, avgL s1 s2 s3 =
      (readSensorL s1.1 s1.2.1 s1.2.2 + readSensorL s2.1 s2.2.1 s2.2.2 +
        readSensorL s3.1 s3.2.1 s3.2.2) / 3) ∧
    readSensorL 0 0 0 = 0 ∧
    (∀ s2 s3 : ℕ × ℕ × ℕ, avgL (0, 0, 0) s2 s3 =
      (0 + readSensorL s2.1 s2.2.1 s2.2.2 + readSensorL s3.1 s3.2.1 s3.2.2) / 3) := by
  refine ⟨fun s1 s2 s3 => rfl, readSensorL_zero, fun s2 s3 => ?_⟩
  rw [avgL, readSensorL_zero]

/-- Claim C5 fails as stated: a cycle in which all three sensors fail
(all-zero reads) does not hold the heater state — with target 85 active
and all pins HIGH, the cycle computes avgL* = 0, treats it as very dark
toast, switches the heaters off, asserts ready and clears the target. -/
theorem claim5_counterexample :
    loopStepSensors
        { targetL := 85, heatPin1 := true, heatPin2 := true, heatPin3 := true,
          heatPin4 := true, readyPin := true } (0, 0, 0) (0, 0, 0) (0, 0, 0)
      = doneState ∧
    doneState.heatPin1 ≠ true ∧ doneState.readyPin ≠ true := by
  have havg : avgL (0, 0, 0) (0, 0, 0) (0, 0, 0) = 0 := by
    rw [avgL, readSensorL_zero]
    norm_num
  refine ⟨?_, by simp [doneState], by simp [doneState]⟩
  rw [loopStepSensors, havg, loopStep, if_pos]
  constructor <;> norm_num

/-- Claim C5 amended: there is no "no valid sensors" condition — an
all-failed cycle produces avgL* = 0, and whenever a valid target is
active this triggers completion (heaters off, ready asserted, target
cleared) instead of holding the state. -/
theorem claim5_amended (s : LoopState) (h : 0 < s.targetL) :
    avgL (0, 0, 0) (0, 0, 0) (0, 0, 0) = 0 ∧
    loopStepSensors s (0, 0, 0) (0, 0, 0) (0, 0, 0) = doneState := by
  have havg : avgL (0, 0, 0) (0, 0, 0) (0, 0, 0) = 0 := by
    rw [avgL, readSensorL_zero]
    norm_num
  refine ⟨havg, ?_⟩
  rw [loopStepSensors, havg, loopStep, if_pos]
  exact ⟨h, le_of_lt h⟩

/-- Witness for C5 amended at a concrete active session. -/
theorem claim5_witness :
    loopStepSensors
        { targetL := 55, heatPin1 := true, heatPin2 := true, heatPin3 := true,
          heatPin4 := true, readyPin := true } (0, 0, 0) (0, 0, 0) (0, 0, 0)
      = doneState :=
  (claim5_amended
    { targetL := 55, heatPin1 := true, heatPin2 := true, heatPin3 := true,
      heatPin4 := true, readyPin := true } (by norm_num)).2

/-- Claim C6 fails as stated, in both directions. `normalizeRGB`
divides by 255 but the sensors deliver 16-bit values: the in-range
sample (300, 300, 300) normalizes above 1 and converts to an L*
strictly above 100; and the saturated sample (65535, 65535, 65535)
wraps to −1 in the 16-bit `int` parameter and converts to a strictly
negative L*. -/
theorem claim6_counterexample :
    100 < readSensorL 300 300 300 ∧ readSensorL 65535 65535 65535 < 0 := by
  constructor
  · have hn : normalizeRGB 300 = 20 / 17 := by
      rw [normalizeRGB_eq_of_small 300 (by omega)]
      norm_num
    have hg : (1.3456 : ℝ) ≤ srgbGamma (20 / 17) := by
      rw [srgbGamma, if_pos (by norm_num)]
      have h1 : (1.16 : ℝ) ^ (2.4 : ℝ) ≤ ((20 / 17 + 0.055) / 1.055) ^ (2.4 : ℝ) :=
        Real.rpow_le_rpow (by norm_num) (by norm_num) (by norm_num)
      have h2 : (1.16 : ℝ) ^ ((2 : ℕ) : ℝ) ≤ (1.16 : ℝ) ^ (2.4 : ℝ) :=
        Real.rpow_le_rpow_of_exponent_le (by norm_num) (by norm_num)
      rw [Real.rpow_natCast] at h2
      norm_num at h2
      linarith
    have hy : (1.3456 : ℝ) ≤
        xyzY (normalizeRGB 300) (normalizeRGB 300) (normalizeRGB 300) := by
      rw [hn, xyzY]
      nlinarith [hg]
    rw [readSensorL, labL]
    have hyy : (1 : ℝ) <
        xyzY (normalizeRGB 300) (normalizeRGB 300) (normalizeRGB 300) / 1.00000 := by
      norm_num
      linarith
    rw [labF, if_pos (by linarith)]
    have hroot : 1 <
        (xyzY (normalizeRGB 300) (normalizeRGB 300) (normalizeRGB 300) / 1.00000) ^
          ((1 : ℝ) / 3) := by
      rw [Real.one_lt_rpow_iff_of_pos (by linarith)]
      left
      exact ⟨hyy, by norm_num⟩
    linarith
  · norm_num [readSensorL, labL, labF, xyzY, srgbGamma, normalizeRGB, wrapInt16]

/-- Claim C6 amended: the conversion is deterministic (equal raw inputs
give equal L*), and on the 0–255 range `normalizeRGB` assumes, L* lies
between 0 and 100.001 (the RGB→XYZ Y-row coefficients sum to
1.0000001, so exact arithmetic lands marginally above 100 at pure
white). Outside that range the claimed bounds fail in both directions:
values in 256–32767 can drive L* above 100, and values at or above
32768 wrap negative in the 16-bit `int` parameter and can drive L*
below 0. -/
theorem claim6_amended :
    (∀ r g b r' g' b' : ℕ, r = r' → g = g' → b = b' →
      readSensorL r g b = readSensorL r' g' b') ∧
    (∀ r g b : ℕ, r ≤ 255 → g ≤ 255 → b ≤ 255 →
      0 ≤ readSensorL r g b ∧ readSensorL r g b ≤ 100.001) := by
  refine ⟨?_, ?_⟩
  · intro r g b r' g' b' hr hg hb
    rw [hr, hg, hb]
  · intro r g b hr hg hb
    exact ⟨readSensorL_nonneg r g b hr hg hb, readSensorL_le r g b hr hg hb⟩

/-- Witness for C6 amended at concrete samples. -/
theorem claim6_witness :
    readSensorL 12 34 56 = readSensorL 12 34 56 ∧
    0 ≤ readSensorL 12 34 56 ∧ readSensorL 12 34 56 ≤ 100.001 :=
  ⟨claim6_amended.1 12 34 56 12 34 56 rfl rfl rfl,
   claim6_amended.2 12 34 56 (by norm_num) (by norm_num) (by norm_num)⟩

/-- Claim C7: the standalone `convertRGBToLAB` maps the all-dark input
to exactly (0,0,0) through its degenerate `maxVal ≤ 0` path, as the
claim says; but on pure white (255,255,255) it returns L* below 1 —
nowhere near 100 ± 0.5 — because it divides each channel by the maximum
channel and then divides by 255 again. The `RGBtoXYZ`/`XYZtoLAB`
pipeline of the controller sketch does meet the reference points: on
the same white input its L* lies in [99.5, 100.5] and its a* and b*
lie within ±0.5 of 0, and on all-dark input its L* is exactly 0. -/
theorem claim7_reference_points :
    convertRGBToLAB 0 0 0 = (0, 0, 0) ∧
    (convertRGBToLAB 255 255 255).1 < 1 ∧
    (99.5 ≤ readSensorL 255 255 255 ∧ readSensorL 255 255 255 ≤ 100.5) ∧
    (-0.5 ≤ labA (xyzX (normalizeRGB 255) (normalizeRGB 255) (normalizeRGB 255))
        (xyzY (normalizeRGB 255) (normalizeRGB 255) (normalizeRGB 255)) ∧
      labA (xyzX (normalizeRGB 255) (normalizeRGB 255) (normalizeRGB 255))
        (xyzY (normalizeRGB 255) (normalizeRGB 255) (normalizeRGB 255)) ≤ 0.5) ∧
    (-0.5 ≤ labB (xyzY (normalizeRGB 255) (normalizeRGB 255) (normalizeRGB 255))
        (xyzZ (normalizeRGB 255) (normalizeRGB 255) (normalizeRGB 255)) ∧
      labB (xyzY (normalizeRGB 255) (normalizeRGB 255) (normalizeRGB 255))
        (xyzZ (normalizeRGB 255) (normalizeRGB 255) (normalizeRGB 255)) ≤ 0.5) ∧
    readSensorL 0 0 0 = 0 := by
  have hn : normalizeRGB 255 = 1 := by
    rw [normalizeRGB_eq_of_small 255 (by omega)]
    norm_num
  have hg : srgbGamma 1 = 1 := by
    rw [srgbGamma, if_pos (by norm_num)]
    norm_num [Real.one_rpow]
  have hX : xyzX 1 1 1 = 0.95047 := by
    rw [xyzX, hg]
    norm_num
  have hY : xyzY 1 1 1 = 1.0000001 := by
    rw [xyzY, hg]
    norm_num
  have hZ : xyzZ 1 1 1 = 1.08883 := by
    rw [xyzZ, hg]
    norm_num
  have hone : labF 1 = 1 := by
    rw [labF, if_pos (by norm_num)]
    exact Real.one_rpow _
  have hf1 : 1 ≤ labF (1.0000001 / 1.00000) := by
    have hd : (1.0000001 : ℝ) / 1.00000 = 1.0000001 := by norm_num
    rw [hd, labF, if_pos (by norm_num)]
    exact Real.one_le_rpow (by norm_num) (by norm_num)
  have hf2 : labF (1.0000001 / 1.00000) ≤ 1.0000001 := by
    have hd : (1.0000001 : ℝ) / 1.00000 = 1.0000001 := by norm_num
    rw [hd]
    exact labF_upper _ (by norm_num)
  have hL1 : 99.5 ≤ readSensorL 255 255 255 := le_of_lt (by linarith [readSensorL_white_gt])
  have hL2 : readSensorL 255 255 255 ≤ 100.5 :=
    le_trans (readSensorL_le 255 255 255 (by norm_num) (by norm_num) (by norm_num))
      (by norm_num)
  have hXdiv : (0.95047 : ℝ) / 0.95047 = 1 := by norm_num
  have hZdiv : (1.08883 : ℝ) / 1.08883 = 1 := by norm_num
  refine ⟨convertRGBToLAB_black, convertRGBToLAB_white_lt_one, ⟨hL1, hL2⟩, ?_, ?_,
    readSensorL_zero⟩
  · rw [hn, labA, hX, hY, hXdiv, hone]
    constructor <;> linarith
  · rw [hn, labB, hY, hZ, hZdiv, hone]
    constructor <;> linarith

/-- Claim C8 fails as stated: on the identical raw input (255,255,255)
the controller pipeline computes L* above 100 while the standalone
`convertRGBToLAB` computes L* below 1, a disagreement far beyond any
small numeric tolerance — the two implementations do not share one
reference-white convention (unit-scaled vs percentage-scaled white,
plus an extra division by the maximum channel). -/
theorem claim8_counterexample :
    0.5 < readSensorL 255 255 255 - (convertRGBToLAB 255 255 255).1 := by
  have h1 := readSensorL_white_gt
  have h2 := convertRGBToLAB_white_lt_one
  linarith

/-- Claim C8 amended: the two implementations do not hold one
reference-white convention across the system — they agree exactly at
the degenerate all-dark input (both return L* = 0), but at pure white
their L* values differ by more than the tolerance 0.5 (the pipeline is
above 100 while `convertRGBToLAB` is below 1). -/
theorem claim8_amended :
    readSensorL 0 0 0 = (convertRGBToLAB 0 0 0).1 ∧ readSensorL 0 0 0 = 0 ∧
    0.5 < readSensorL 255 255 255 - (convertRGBToLAB 255 255 255).1 := by
  refine ⟨?_, readSensorL_zero, ?_⟩
  · rw [readSensorL_zero, convertRGBToLAB_black]
  · have h1 := readSensorL_white_gt
    have h2 := convertRGBToLAB_white_lt_one
    linarith

end ToastBot
